import Mathlib

/-!
Shallow embedding of `pair.go` (package `pairing`) and proofs of the
specified properties of its key store.

Modelling choices:
* Go `time.Time` and `time.Duration` are embedded as `Int` nanoseconds;
  `time.Since t`, taken at wall-clock instant `now`, is `now - t`.
* The two Go maps are embedded as `AList (fun _ : String => keyInfo)`:
  association lists without duplicate keys, whose `lookup`, overwriting
  `insert` and `erase` have exactly the semantics of the Go map
  operations used by this code.  A `nil` Go map behaves, for every
  operation this file performs on it, like an empty map, so the lazy
  allocation on lines 44-49 of the source is the identity here and both
  `nil` and empty are embedded as `∅`.
* `Dictionary.Generate`, the external random renderer capability, is
  embedded as an oracle `render : Nat → String` giving the candidate
  rendered at each attempt of the retry loop; every call to `Generate`
  carries its own oracle and its own wall-clock instant `now`.
* The mutex serialises the two operations, so each is embedded as an
  atomic state transformer `Pairs → Pairs × String`.
-/

namespace Pairing

/-- Go struct `keyInfo`: the device, the key and the issue time of one
pairing record. -/
structure keyInfo where
  DeviceID : String
  Key : String
  Time : Int
deriving DecidableEq, Repr

/-- Go struct `Pairs`: the four configuration fields and the two indexes
(device → record and key → record). -/
structure Pairs where
  Dictionary : String
  Length : Nat
  Expire : Int
  MaxIter : Nat
  devices : AList (fun _ : String => keyInfo)
  keys : AList (fun _ : String => keyInfo)

/-- Modelled from the spec: `DictAlfa`, the default "alpha" character
dictionary, is declared in a repository file that is not under `src/`.
Only its being the default alphabet matters to the claims, never its
contents, which are taken here to be the Latin capital letters. -/
def DictAlfa : String := "ABCDEFGHIJKLMNOPQRSTUVWXYZ"

/-- Go `time.Minute` in nanoseconds, the unit of the embedded durations. -/
def timeMinute : Int := 60 * 1000000000

/-- Lines 50-61 of `Generate`: defaulting of the four zero-valued
configuration fields on every call (the lazy map allocation of lines
44-49 is the identity in this embedding). -/
def Pairs.applyDefaults (p : Pairs) : Pairs :=
  { p with
    Dictionary := if p.Dictionary.length = 0 then DictAlfa else p.Dictionary
    Length := if p.Length = 0 then 6 else p.Length
    Expire := if p.Expire = 0 then 30 * timeMinute else p.Expire
    MaxIter := if p.MaxIter = 0 then 1000 else p.MaxIter }

/-- Lines 62-67 of `Generate`: when the device already holds a record,
delete that record from both indexes. -/
def Pairs.dropExisting (p : Pairs) (deviceID : String) : Pairs :=
  match p.devices.lookup deviceID with
  | some kInfo =>
    { p with
      keys := p.keys.erase kInfo.Key
      devices := p.devices.erase kInfo.DeviceID }
  | none => p

/-- Lines 82-89 of `Generate`: build the new record and insert it into
both indexes. -/
def Pairs.insertRecord (p : Pairs) (deviceID key : String) (now : Int) : Pairs :=
  { p with
    devices := p.devices.insert deviceID ⟨deviceID, key, now⟩
    keys := p.keys.insert key ⟨deviceID, key, now⟩ }

/-- Lines 69-92 of `Generate`: the retry loop.  `key` is the named return
value of the Go function: every iteration overwrites it with the rendered
candidate, and on exhaustion the loop falls through with its last value.
`i` is the loop counter and `fuel` the remaining iterations, so a call
starts with `fuel = MaxIter` and `i = 0`. -/
def Pairs.genLoop (deviceID : String) (render : Nat → String) (now : Int) :
    Pairs → String → Nat → Nat → Pairs × String
  | p, key, _, 0 => (p, key)
  | p, _, i, fuel + 1 =>
    match p.keys.lookup (render i) with
    | some kInfo =>
      if now - kInfo.Time < p.Expire then
        Pairs.genLoop deviceID render now p (render i) (i + 1) fuel
      else
        (Pairs.insertRecord
          { p with
            keys := p.keys.erase kInfo.Key
            devices := p.devices.erase kInfo.DeviceID }
          deviceID (render i) now, render i)
    | none => (p.insertRecord deviceID (render i) now, render i)

/-- Go `Pairs.Generate` (lines 41-95): default the configuration, drop the
previous binding of the device, then run the retry loop. -/
def Pairs.Generate (p : Pairs) (deviceID : String) (render : Nat → String)
    (now : Int) : Pairs × String :=
  let p1 := (p.applyDefaults).dropExisting deviceID
  Pairs.genLoop deviceID render now p1 "" 0 p1.MaxIter

/-- Go `Pairs.GetDeviceID` (lines 100-111) — `Redeem` in the spec: look
the key up; when found, delete the record from both indexes and return
its device identifier when it has not yet expired, the empty string
otherwise. -/
def Pairs.GetDeviceID (p : Pairs) (key : String) (now : Int) : Pairs × String :=
  match p.keys.lookup key with
  | some kInfo =>
    ({ p with
       keys := p.keys.erase kInfo.Key
       devices := p.devices.erase kInfo.DeviceID },
     if now - kInfo.Time < p.Expire then kInfo.DeviceID else "")
  | none => (p, "")

/-- The zero value of `Pairs`: a fresh store with no configuration set. -/
def Pairs.empty : Pairs := ⟨"", 0, 0, 0, ∅, ∅⟩

/-! Concrete scenarios used for witnesses and counter-evaluations.  A
small attempt budget keeps the kernel evaluations short; the behaviour at
issue is the same for any budget. -/

/-- A fresh store with a small attempt budget. -/
def smallStore : Pairs := { Pairs.empty with MaxIter := 3 }

/-- Saturation scenario, as in the specification: a renderer that always
produces "AAAAAA", first bound to device1. -/
def satFirst : Pairs × String := smallStore.Generate "device1" (fun _ => "AAAAAA") 0

/-- Second call of the saturation scenario: every attempt collides with
the live record of device1. -/
def satSecond : Pairs × String := satFirst.1.Generate "device2" (fun _ => "AAAAAA") 0

/-- Rebinding scenario: the same device generates twice while the renderer
returns the same string both times. -/
def rebindSame1 : Pairs × String := smallStore.Generate "dev" (fun _ => "AAAAAA") 0

/-- Second call of the rebinding scenario. -/
def rebindSame2 : Pairs × String := rebindSame1.1.Generate "dev" (fun _ => "AAAAAA") 1

/-- Rebinding with a fresh second key. -/
def rebind1 : Pairs × String := smallStore.Generate "dev" (fun _ => "AAA") 0

/-- Second call of the fresh-key rebinding scenario. -/
def rebind2 : Pairs × String := rebind1.1.Generate "dev" (fun _ => "BBB") 1

/-- One successful generation. -/
def singleGen : Pairs × String := smallStore.Generate "dev" (fun _ => "KEY") 0

/-- Redemption of the generated key before expiry. -/
def singleRedeem : Pairs × String := singleGen.1.GetDeviceID singleGen.2 5

/-- A store holding one record issued at instant 0 with a ttl of 5. -/
def expiredStore : Pairs :=
  (({ Pairs.empty with Expire := 5, MaxIter := 3 }).Generate "dev" (fun _ => "KEY") 0).1

/-- Generation for the empty device identifier. -/
def emptyIdGen : Pairs × String := smallStore.Generate "" (fun _ => "XYZ") 0

/-- Core of the dual-index invariant, stated on the two indexes: every
record reachable from the device index names its own device and is
reachable from the key index under its own key, and vice versa. -/
def WFm (dev ks : AList (fun _ : String => keyInfo)) : Prop :=
  (∀ d r, dev.lookup d = some r → r.DeviceID = d ∧ ks.lookup r.Key = some r) ∧
  (∀ k r, ks.lookup k = some r → r.Key = k ∧ dev.lookup r.DeviceID = some r)

/-- The dual-index invariant of a store. -/
def WF (p : Pairs) : Prop := WFm p.devices p.keys

/-- The states reachable from a fresh store (arbitrary initial
configuration, empty indexes) by any sequence of the two operations. -/
inductive Reachable : Pairs → Prop
  | init (dict : String) (len : Nat) (exp : Int) (mi : Nat) :
      Reachable ⟨dict, len, exp, mi, ∅, ∅⟩
  | gen (p : Pairs) (d : String) (render : Nat → String) (now : Int) :
      Reachable p → Reachable (p.Generate d render now).1
  | redeem (p : Pairs) (k : String) (now : Int) :
      Reachable p → Reachable (p.GetDeviceID k now).1

/-! ### Helper lemmas: one step of the retry loop -/

/-- Exhausted loop: the named return value keeps its last assignment. -/
theorem Pairs.genLoop_zero (d : String) (render : Nat → String) (now : Int)
    (p : Pairs) (k0 : String) (i : Nat) :
    Pairs.genLoop d render now p k0 i 0 = (p, k0) := rfl

/-- Loop step on a free candidate: insert the new record and stop. -/
theorem Pairs.genLoop_succ_none (d : String) (render : Nat → String) (now : Int)
    (p : Pairs) (k0 : String) (i fuel : Nat)
    (hl : p.keys.lookup (render i) = none) :
    Pairs.genLoop d render now p k0 i (fuel + 1) =
      (p.insertRecord d (render i) now, render i) := by
  simp only [Pairs.genLoop]
  split
  · next kInfo heq => rw [hl] at heq; cases heq
  · rfl

/-- Loop step on a collision with a live record: retry. -/
theorem Pairs.genLoop_succ_live (d : String) (render : Nat → String) (now : Int)
    (p : Pairs) (k0 : String) (i fuel : Nat) (kInfo : keyInfo)
    (hl : p.keys.lookup (render i) = some kInfo)
    (hfresh : now - kInfo.Time < p.Expire) :
    Pairs.genLoop d render now p k0 i (fuel + 1) =
      Pairs.genLoop d render now p (render i) (i + 1) fuel := by
  simp only [Pairs.genLoop]
  split
  · next kInfo2 heq =>
    rw [hl] at heq
    injection heq with heq
    subst heq
    rw [if_pos hfresh]
  · next heq => rw [hl] at heq; cases heq

/-- Loop step on a collision with an expired record: purge it from both
indexes, insert the new record and stop. -/
theorem Pairs.genLoop_succ_expired (d : String) (render : Nat → String) (now : Int)
    (p : Pairs) (k0 : String) (i fuel : Nat) (kInfo : keyInfo)
    (hl : p.keys.lookup (render i) = some kInfo)
    (hfresh : ¬ now - kInfo.Time < p.Expire) :
    Pairs.genLoop d render now p k0 i (fuel + 1) =
      (Pairs.insertRecord
        { p with
          keys := p.keys.erase kInfo.Key
          devices := p.devices.erase kInfo.DeviceID }
        d (render i) now, render i) := by
  simp only [Pairs.genLoop]
  split
  · next kInfo2 heq =>
    rw [hl] at heq
    injection heq with heq
    subst heq
    rw [if_neg hfresh]
  · next heq => rw [hl] at heq; cases heq

/-! ### Helper lemmas: the whole retry loop -/

/-- The retry loop never changes the configuration fields. -/
theorem Pairs.genLoop_config (d : String) (render : Nat → String) (now : Int) :
    ∀ (fuel i : Nat) (p : Pairs) (k0 : String),
      (Pairs.genLoop d render now p k0 i fuel).1.Dictionary = p.Dictionary ∧
      (Pairs.genLoop d render now p k0 i fuel).1.Length = p.Length ∧
      (Pairs.genLoop d render now p k0 i fuel).1.Expire = p.Expire ∧
      (Pairs.genLoop d render now p k0 i fuel).1.MaxIter = p.MaxIter := by
  intro fuel
  induction fuel with
  | zero => intro i p k0; rw [Pairs.genLoop_zero]; exact ⟨rfl, rfl, rfl, rfl⟩
  | succ n ih =>
    intro i p k0
    cases hl : p.keys.lookup (render i) with
    | none =>
      rw [Pairs.genLoop_succ_none d render now p k0 i n hl]
      exact ⟨rfl, rfl, rfl, rfl⟩
    | some kInfo =>
      by_cases hfresh : now - kInfo.Time < p.Expire
      · rw [Pairs.genLoop_succ_live d render now p k0 i n kInfo hl hfresh]
        exact ih (i + 1) p (render i)
      · rw [Pairs.genLoop_succ_expired d render now p k0 i n kInfo hl hfresh]
        exact ⟨rfl, rfl, rfl, rfl⟩

/-- The retry loop consults the renderer only at attempt indexes below
`i + fuel`. -/
theorem Pairs.genLoop_congr (d : String) (render render2 : Nat → String) (now : Int) :
    ∀ (fuel i : Nat) (p : Pairs) (k0 : String),
      (∀ j, i ≤ j → j < i + fuel → render j = render2 j) →
      Pairs.genLoop d render now p k0 i fuel = Pairs.genLoop d render2 now p k0 i fuel := by
  intro fuel
  induction fuel with
  | zero => intro i p k0 _; rw [Pairs.genLoop_zero, Pairs.genLoop_zero]
  | succ n ih =>
    intro i p k0 h
    have hi : render i = render2 i := h i le_rfl (by omega)
    cases hl : p.keys.lookup (render i) with
    | none =>
      rw [Pairs.genLoop_succ_none d render now p k0 i n hl,
        Pairs.genLoop_succ_none d render2 now p k0 i n (hi ▸ hl), hi]
    | some kInfo =>
      by_cases hfresh : now - kInfo.Time < p.Expire
      · rw [Pairs.genLoop_succ_live d render now p k0 i n kInfo hl hfresh,
          Pairs.genLoop_succ_live d render2 now p k0 i n kInfo (hi ▸ hl) hfresh, hi]
        exact ih (i + 1) p (render2 i) fun j h1 h2 => h j (by omega) (by omega)
      · rw [Pairs.genLoop_succ_expired d render now p k0 i n kInfo hl hfresh,
          Pairs.genLoop_succ_expired d render2 now p k0 i n kInfo (hi ▸ hl) hfresh, hi]

/-- When the loop result holds a record for the target device although the
loop started without one, the loop inserted it: the record binds the device
to the returned key with issue time `now`, and the key index holds the same
record under the returned key. -/
theorem Pairs.genLoop_success (d : String) (render : Nat → String) (now : Int) :
    ∀ (fuel i : Nat) (p : Pairs) (k0 : String) (r : keyInfo),
      p.devices.lookup d = none →
      (Pairs.genLoop d render now p k0 i fuel).1.devices.lookup d = some r →
      r = ⟨d, (Pairs.genLoop d render now p k0 i fuel).2, now⟩ ∧
      (Pairs.genLoop d render now p k0 i fuel).1.keys.lookup
        (Pairs.genLoop d render now p k0 i fuel).2 = some r := by
  intro fuel
  induction fuel with
  | zero =>
    intro i p k0 r hnone hsome
    rw [Pairs.genLoop_zero] at hsome
    rw [hnone] at hsome
    cases hsome
  | succ n ih =>
    intro i p k0 r hnone hsome
    cases hl : p.keys.lookup (render i) with
    | none =>
      rw [Pairs.genLoop_succ_none d render now p k0 i n hl] at hsome ⊢
      simp only [Pairs.insertRecord] at hsome ⊢
      rw [AList.lookup_insert] at hsome
      injection hsome with hsome
      subst hsome
      exact ⟨rfl, AList.lookup_insert _⟩
    | some kInfo =>
      by_cases hfresh : now - kInfo.Time < p.Expire
      · rw [Pairs.genLoop_succ_live d render now p k0 i n kInfo hl hfresh] at hsome ⊢
        exact ih (i + 1) p (render i) r hnone hsome
      · rw [Pairs.genLoop_succ_expired d render now p k0 i n kInfo hl hfresh] at hsome ⊢
        simp only [Pairs.insertRecord] at hsome ⊢
        rw [AList.lookup_insert] at hsome
        injection hsome with hsome
        subst hsome
        exact ⟨rfl, AList.lookup_insert _⟩

/-- When the loop ends without a record for the target device although it
also started without one, it changed nothing at all. -/
theorem Pairs.genLoop_failure (d : String) (render : Nat → String) (now : Int) :
    ∀ (fuel i : Nat) (p : Pairs) (k0 : String),
      (Pairs.genLoop d render now p k0 i fuel).1.devices.lookup d = none →
      (Pairs.genLoop d render now p k0 i fuel).1 = p := by
  intro fuel
  induction fuel with
  | zero => intro i p k0 _; rw [Pairs.genLoop_zero]
  | succ n ih =>
    intro i p k0 hnone
    cases hl : p.keys.lookup (render i) with
    | none =>
      rw [Pairs.genLoop_succ_none d render now p k0 i n hl] at hnone
      simp only [Pairs.insertRecord] at hnone
      rw [AList.lookup_insert] at hnone
      cases hnone
    | some kInfo =>
      by_cases hfresh : now - kInfo.Time < p.Expire
      · rw [Pairs.genLoop_succ_live d render now p k0 i n kInfo hl hfresh] at hnone ⊢
        exact ih (i + 1) p (render i) hnone
      · rw [Pairs.genLoop_succ_expired d render now p k0 i n kInfo hl hfresh] at hnone
        simp only [Pairs.insertRecord] at hnone
        rw [AList.lookup_insert] at hnone
        cases hnone

/-- A key absent from the key index stays absent through the loop unless it
is the returned key. -/
theorem Pairs.genLoop_keys_none (d : String) (render : Nat → String) (now : Int) :
    ∀ (fuel i : Nat) (p : Pairs) (k0 k : String),
      p.keys.lookup k = none →
      k ≠ (Pairs.genLoop d render now p k0 i fuel).2 →
      (Pairs.genLoop d render now p k0 i fuel).1.keys.lookup k = none := by
  intro fuel
  induction fuel with
  | zero => intro i p k0 k hk _; rw [Pairs.genLoop_zero]; exact hk
  | succ n ih =>
    intro i p k0 k hk hne
    cases hl : p.keys.lookup (render i) with
    | none =>
      rw [Pairs.genLoop_succ_none d render now p k0 i n hl] at hne ⊢
      simp only [Pairs.insertRecord]
      rw [AList.lookup_insert_ne hne]
      exact hk
    | some kInfo =>
      by_cases hfresh : now - kInfo.Time < p.Expire
      · rw [Pairs.genLoop_succ_live d render now p k0 i n kInfo hl hfresh] at hne ⊢
        exact ih (i + 1) p (render i) k hk hne
      · rw [Pairs.genLoop_succ_expired d render now p k0 i n kInfo hl hfresh] at hne ⊢
        simp only [Pairs.insertRecord]
        rw [AList.lookup_insert_ne hne]
        rcases eq_or_ne k kInfo.Key with hkk | hkk
        · rw [hkk]; exact AList.lookup_erase _ _
        · rw [AList.lookup_erase_ne hkk]; exact hk

/-! ### Helper lemmas: the dual-index invariant -/

/-- Empty indexes satisfy the invariant. -/
theorem wfm_empty : WFm ∅ ∅ := by
  constructor
  · intro d r h; rw [AList.lookup_empty] at h; cases h
  · intro k r h; rw [AList.lookup_empty] at h; cases h

/-- Erasing any key preserves the absence of a key. -/
theorem lookup_erase_of_none {s : AList (fun _ : String => keyInfo)} {a k : String}
    (h : s.lookup k = none) : (s.erase a).lookup k = none := by
  rcases eq_or_ne k a with rfl | hne
  · exact AList.lookup_erase _ _
  · rw [AList.lookup_erase_ne hne]; exact h

/-- Removing one record from both indexes preserves the invariant. -/
theorem wfm_erase {dev ks : AList (fun _ : String => keyInfo)} {r : keyInfo}
    (hwf : WFm dev ks)
    (hd : dev.lookup r.DeviceID = some r) (hk : ks.lookup r.Key = some r) :
    WFm (dev.erase r.DeviceID) (ks.erase r.Key) := by
  obtain ⟨h1, h2⟩ := hwf
  constructor
  · intro d q hq
    rcases eq_or_ne d r.DeviceID with rfl | hne
    · rw [AList.lookup_erase] at hq; cases hq
    · rw [AList.lookup_erase_ne hne] at hq
      obtain ⟨hqd, hqk⟩ := h1 d q hq
      refine ⟨hqd, ?_⟩
      rcases eq_or_ne q.Key r.Key with hkk | hkk
      · rw [hkk, hk] at hqk
        injection hqk with hqk
        have hrd : r.DeviceID = d := by rw [hqk]; exact hqd
        exact absurd hrd (Ne.symm hne)
      · rw [AList.lookup_erase_ne hkk]; exact hqk
  · intro k q hq
    rcases eq_or_ne k r.Key with rfl | hne
    · rw [AList.lookup_erase] at hq; cases hq
    · rw [AList.lookup_erase_ne hne] at hq
      obtain ⟨hqk, hqd⟩ := h2 k q hq
      refine ⟨hqk, ?_⟩
      rcases eq_or_ne q.DeviceID r.DeviceID with hdd | hdd
      · rw [hdd, hd] at hqd
        injection hqd with hqd
        have hrk : r.Key = k := by rw [hqd]; exact hqk
        exact absurd hrk (Ne.symm hne)
      · rw [AList.lookup_erase_ne hdd]; exact hqd

/-- Inserting one fresh record into both indexes preserves the invariant. -/
theorem wfm_insert {dev ks : AList (fun _ : String => keyInfo)} (d k : String) (now : Int)
    (hwf : WFm dev ks) (hd : dev.lookup d = none) (hk : ks.lookup k = none) :
    WFm (dev.insert d ⟨d, k, now⟩) (ks.insert k ⟨d, k, now⟩) := by
  obtain ⟨h1, h2⟩ := hwf
  constructor
  · intro d2 q hq
    rcases eq_or_ne d2 d with rfl | hne
    · rw [AList.lookup_insert] at hq
      injection hq with hq
      subst hq
      exact ⟨rfl, AList.lookup_insert ks⟩
    · rw [AList.lookup_insert_ne hne] at hq
      obtain ⟨hqd, hqk⟩ := h1 d2 q hq
      refine ⟨hqd, ?_⟩
      rcases eq_or_ne q.Key k with hkk | hkk
      · rw [hkk, hk] at hqk; cases hqk
      · rw [AList.lookup_insert_ne hkk]; exact hqk
  · intro k2 q hq
    rcases eq_or_ne k2 k with rfl | hne
    · rw [AList.lookup_insert] at hq
      injection hq with hq
      subst hq
      exact ⟨rfl, AList.lookup_insert dev⟩
    · rw [AList.lookup_insert_ne hne] at hq
      obtain ⟨hqk, hqd⟩ := h2 k2 q hq
      refine ⟨hqk, ?_⟩
      rcases eq_or_ne q.DeviceID d with hdd | hdd
      · rw [hdd, hd] at hqd; cases hqd
      · rw [AList.lookup_insert_ne hdd]; exact hqd

/-- Dropping the previous binding of a device preserves the invariant and
leaves the device without a record. -/
theorem wf_dropExisting (p : Pairs) (d : String) (hwf : WF p) :
    WF (p.dropExisting d) ∧ (p.dropExisting d).devices.lookup d = none := by
  unfold Pairs.dropExisting
  split
  · next kInfo heq =>
    obtain ⟨hdd, hkk⟩ := hwf.1 d kInfo heq
    have hd : p.devices.lookup kInfo.DeviceID = some kInfo := by rw [hdd]; exact heq
    constructor
    · exact wfm_erase hwf hd hkk
    · show (p.devices.erase kInfo.DeviceID).lookup d = none
      rw [hdd]
      exact AList.lookup_erase _ _
  · next heq => exact ⟨hwf, heq⟩

/-- The retry loop preserves the invariant when the target device starts
without a record. -/
theorem wf_genLoop (d : String) (render : Nat → String) (now : Int) :
    ∀ (fuel i : Nat) (p : Pairs) (k0 : String),
      WF p → p.devices.lookup d = none →
      WF (Pairs.genLoop d render now p k0 i fuel).1 := by
  intro fuel
  induction fuel with
  | zero => intro i p k0 hwf _; rw [Pairs.genLoop_zero]; exact hwf
  | succ n ih =>
    intro i p k0 hwf hnone
    cases hl : p.keys.lookup (render i) with
    | none =>
      rw [Pairs.genLoop_succ_none d render now p k0 i n hl]
      exact wfm_insert d (render i) now hwf hnone hl
    | some kInfo =>
      by_cases hfresh : now - kInfo.Time < p.Expire
      · rw [Pairs.genLoop_succ_live d render now p k0 i n kInfo hl hfresh]
        exact ih (i + 1) p (render i) hwf hnone
      · rw [Pairs.genLoop_succ_expired d render now p k0 i n kInfo hl hfresh]
        obtain ⟨hkk, hdev⟩ := hwf.2 (render i) kInfo hl
        have hwf2 : WFm (p.devices.erase kInfo.DeviceID) (p.keys.erase kInfo.Key) :=
          wfm_erase hwf hdev (by rw [hkk]; exact hl)
        have hd2 : (p.devices.erase kInfo.DeviceID).lookup d = none :=
          lookup_erase_of_none hnone
        have hk2 : (p.keys.erase kInfo.Key).lookup (render i) = none := by
          rw [← hkk]; exact AList.lookup_erase _ _
        exact wfm_insert d (render i) now hwf2 hd2 hk2

/-- `Generate` preserves the invariant. -/
theorem wf_generate (p : Pairs) (d : String) (render : Nat → String) (now : Int)
    (hwf : WF p) : WF (p.Generate d render now).1 := by
  have h0 : WF p.applyDefaults := hwf
  obtain ⟨h1, h2⟩ := wf_dropExisting p.applyDefaults d h0
  exact wf_genLoop d render now _ 0 _ "" h1 h2

/-- `GetDeviceID` preserves the invariant. -/
theorem wf_getDeviceID (p : Pairs) (k : String) (now : Int) (hwf : WF p) :
    WF (p.GetDeviceID k now).1 := by
  unfold Pairs.GetDeviceID
  split
  · next kInfo heq =>
    obtain ⟨hkk, hdev⟩ := hwf.2 k kInfo heq
    exact wfm_erase hwf hdev (by rw [hkk]; exact heq)
  · exact hwf

/-- Every reachable store satisfies the invariant. -/
theorem wf_reachable (p : Pairs) (h : Reachable p) : WF p := by
  induction h with
  | init dict len exp mi => exact wfm_empty
  | gen q d render now _ ih => exact wf_generate q d render now ih
  | redeem q k now _ ih => exact wf_getDeviceID q k now ih

/-- The invariant forces the two indexes to hold the same number of
records. -/
theorem size_eq_of_wf (p : Pairs) (hwf : WF p) :
    p.devices.entries.length = p.keys.entries.length := by
  obtain ⟨h1, h2⟩ := hwf
  have hdn : p.devices.entries.Nodup := p.devices.nodupKeys.nodup
  have hkn : p.keys.entries.Nodup := p.keys.nodupKeys.nodup
  rw [← List.toFinset_card_of_nodup hdn, ← List.toFinset_card_of_nodup hkn]
  apply le_antisymm
  · apply Finset.card_le_card_of_injOn
      (fun e : Sigma (fun _ : String => keyInfo) => ⟨e.2.Key, e.2⟩)
    · rintro ⟨d, r⟩ hm
      rw [List.mem_toFinset] at hm ⊢
      have hl : p.devices.lookup d = some r :=
        Option.mem_def.1 (AList.mem_lookup_iff.2 hm)
      obtain ⟨-, hk⟩ := h1 d r hl
      exact AList.mem_lookup_iff.1 (Option.mem_def.2 hk)
    · rintro ⟨d1, r1⟩ hm1 ⟨d2, r2⟩ hm2 heq
      rw [Finset.mem_coe, List.mem_toFinset] at hm1 hm2
      have hr : r1 = r2 :=
        congrArg (fun e : Sigma (fun _ : String => keyInfo) => e.2) heq
      subst hr
      have e1 : p.devices.lookup d1 = some r1 :=
        Option.mem_def.1 (AList.mem_lookup_iff.2 hm1)
      have e2 : p.devices.lookup d2 = some r1 :=
        Option.mem_def.1 (AList.mem_lookup_iff.2 hm2)
      obtain ⟨hd1, -⟩ := h1 d1 r1 e1
      obtain ⟨hd2, -⟩ := h1 d2 r1 e2
      have hdd : d1 = d2 := hd1.symm.trans hd2
      subst hdd
      rfl
  · apply Finset.card_le_card_of_injOn
      (fun e : Sigma (fun _ : String => keyInfo) => ⟨e.2.DeviceID, e.2⟩)
    · rintro ⟨k, r⟩ hm
      rw [List.mem_toFinset] at hm ⊢
      have hl : p.keys.lookup k = some r :=
        Option.mem_def.1 (AList.mem_lookup_iff.2 hm)
      obtain ⟨-, hd⟩ := h2 k r hl
      exact AList.mem_lookup_iff.1 (Option.mem_def.2 hd)
    · rintro ⟨k1, r1⟩ hm1 ⟨k2, r2⟩ hm2 heq
      rw [Finset.mem_coe, List.mem_toFinset] at hm1 hm2
      have hr : r1 = r2 :=
        congrArg (fun e : Sigma (fun _ : String => keyInfo) => e.2) heq
      subst hr
      have e1 : p.keys.lookup k1 = some r1 :=
        Option.mem_def.1 (AList.mem_lookup_iff.2 hm1)
      have e2 : p.keys.lookup k2 = some r1 :=
        Option.mem_def.1 (AList.mem_lookup_iff.2 hm2)
      obtain ⟨hk1, -⟩ := h2 k1 r1 e1
      obtain ⟨hk2, -⟩ := h2 k2 r1 e2
      have hkk : k1 = k2 := hk1.symm.trans hk2
      subst hkk
      rfl

/-! ### Helper lemmas: unfolding the two operations -/

/-- `Generate` written as the retry loop over the defaulted, dropped
store. -/
theorem Pairs.generate_eq (p : Pairs) (d : String) (render : Nat → String) (now : Int) :
    p.Generate d render now =
      Pairs.genLoop d render now ((p.applyDefaults).dropExisting d) "" 0
        ((p.applyDefaults).dropExisting d).MaxIter := rfl

/-- `dropExisting` when the device holds a record. -/
theorem Pairs.dropExisting_found (p : Pairs) (d : String) (kInfo : keyInfo)
    (hl : p.devices.lookup d = some kInfo) :
    p.dropExisting d =
      { p with
        keys := p.keys.erase kInfo.Key
        devices := p.devices.erase kInfo.DeviceID } := by
  unfold Pairs.dropExisting
  split
  · next kInfo2 heq => rw [hl] at heq; injection heq with heq; subst heq; rfl
  · next heq => rw [hl] at heq; cases heq

/-- `dropExisting` when the device holds no record. -/
theorem Pairs.dropExisting_missing (p : Pairs) (d : String)
    (hl : p.devices.lookup d = none) : p.dropExisting d = p := by
  unfold Pairs.dropExisting
  split
  · next kInfo2 heq => rw [hl] at heq; cases heq
  · rfl

/-- `dropExisting` never changes the configuration fields. -/
theorem Pairs.dropExisting_config (p : Pairs) (d : String) :
    (p.dropExisting d).Dictionary = p.Dictionary ∧
    (p.dropExisting d).Length = p.Length ∧
    (p.dropExisting d).Expire = p.Expire ∧
    (p.dropExisting d).MaxIter = p.MaxIter := by
  unfold Pairs.dropExisting
  split
  · exact ⟨rfl, rfl, rfl, rfl⟩
  · exact ⟨rfl, rfl, rfl, rfl⟩

/-- `GetDeviceID` on a key present in the key index. -/
theorem Pairs.getDeviceID_found (p : Pairs) (k : String) (now : Int) (kInfo : keyInfo)
    (hl : p.keys.lookup k = some kInfo) :
    p.GetDeviceID k now =
      ({ p with
         keys := p.keys.erase kInfo.Key
         devices := p.devices.erase kInfo.DeviceID },
       if now - kInfo.Time < p.Expire then kInfo.DeviceID else "") := by
  unfold Pairs.GetDeviceID
  split
  · next kInfo2 heq => rw [hl] at heq; injection heq with heq; subst heq; rfl
  · next heq => rw [hl] at heq; cases heq

/-- `GetDeviceID` on a key present and not yet expired. -/
theorem Pairs.getDeviceID_found_fresh (p : Pairs) (k : String) (now : Int) (kInfo : keyInfo)
    (hl : p.keys.lookup k = some kInfo) (hfresh : now - kInfo.Time < p.Expire) :
    p.GetDeviceID k now =
      ({ p with
         keys := p.keys.erase kInfo.Key
         devices := p.devices.erase kInfo.DeviceID },
       kInfo.DeviceID) := by
  rw [Pairs.getDeviceID_found p k now kInfo hl, if_pos hfresh]

/-- `GetDeviceID` on a key present but expired. -/
theorem Pairs.getDeviceID_found_expired (p : Pairs) (k : String) (now : Int) (kInfo : keyInfo)
    (hl : p.keys.lookup k = some kInfo) (hexp : ¬ now - kInfo.Time < p.Expire) :
    p.GetDeviceID k now =
      ({ p with
         keys := p.keys.erase kInfo.Key
         devices := p.devices.erase kInfo.DeviceID },
       "") := by
  rw [Pairs.getDeviceID_found p k now kInfo hl, if_neg hexp]

/-- `GetDeviceID` on a key absent from the key index. -/
theorem Pairs.getDeviceID_missing (p : Pairs) (k : String) (now : Int)
    (hl : p.keys.lookup k = none) : p.GetDeviceID k now = (p, "") := by
  unfold Pairs.GetDeviceID
  split
  · next kInfo2 heq => rw [hl] at heq; cases heq
  · rfl

/-- Components of a `Generate` result, written as the retry loop. -/
theorem Pairs.generate_dest (p : Pairs) (d : String) (render : Nat → String)
    (now : Int) (P1 : Pairs) (K1 : String)
    (h : p.Generate d render now = (P1, K1)) :
    P1 = (Pairs.genLoop d render now ((p.applyDefaults).dropExisting d) "" 0
        ((p.applyDefaults).dropExisting d).MaxIter).1 ∧
    K1 = (Pairs.genLoop d render now ((p.applyDefaults).dropExisting d) "" 0
        ((p.applyDefaults).dropExisting d).MaxIter).2 := by
  rw [Pairs.generate_eq] at h
  rw [h]
  exact ⟨rfl, rfl⟩

/-- A successful `Generate` call (the post-state holds a record for the
device) stored exactly the record binding the device to the returned key
at the call instant, reachable from both indexes. -/
theorem generate_success_record (p P1 : Pairs) (K1 : String) (d : String)
    (render : Nat → String) (now : Int) (r : keyInfo)
    (hwf : WF p)
    (hgen : p.Generate d render now = (P1, K1))
    (hsucc : P1.devices.lookup d = some r) :
    r = ⟨d, K1, now⟩ ∧ P1.keys.lookup K1 = some r := by
  obtain ⟨hP1, hK1⟩ := Pairs.generate_dest p d render now P1 K1 hgen
  subst hP1; subst hK1
  obtain ⟨hwfd, hnone⟩ := wf_dropExisting p.applyDefaults d hwf
  exact Pairs.genLoop_success d render now _ 0 _ "" r hnone hsucc

/-- A `Generate` call from a state in which the device already holds a
record discards that record first: on exhaustion the old key is gone from
the key index; on success the new record binds the device to the returned
key, and the old key is gone whenever the new key differs from it. -/
theorem generate_supersedes (P1 P2 : Pairs) (K2 : String) (d : String)
    (render : Nat → String) (now : Int) (r1 : keyInfo)
    (hwf : WF P1)
    (hsucc1 : P1.devices.lookup d = some r1)
    (hgen : P1.Generate d render now = (P2, K2)) :
    (P2.devices.lookup d = none → P2.keys.lookup r1.Key = none) ∧
    (∀ r2, P2.devices.lookup d = some r2 →
      r2 = ⟨d, K2, now⟩ ∧ P2.keys.lookup K2 = some r2 ∧
      (K2 ≠ r1.Key → P2.keys.lookup r1.Key = none)) := by
  obtain ⟨hP2, hK2⟩ := Pairs.generate_dest P1 d render now P2 K2 hgen
  subst hP2; subst hK2
  obtain ⟨hwfQ, hQnone⟩ := wf_dropExisting P1.applyDefaults d hwf
  have hQk1 : ((P1.applyDefaults).dropExisting d).keys.lookup r1.Key = none := by
    rw [Pairs.dropExisting_found P1.applyDefaults d r1 hsucc1]
    exact AList.lookup_erase _ _
  constructor
  · intro hfail
    rw [Pairs.genLoop_failure d render now _ 0 _ "" hfail]
    exact hQk1
  · intro r2 hsucc2
    obtain ⟨hr2, hkey2⟩ := Pairs.genLoop_success d render now _ 0 _ "" r2 hQnone hsucc2
    refine ⟨hr2, hkey2, ?_⟩
    intro hne
    exact Pairs.genLoop_keys_none d render now _ 0 _ "" r1.Key hQk1 (Ne.symm hne)

/-! ### The claims -/

/-- C1: refuted by evaluation, so the claim marks a bug in the code.  In
the saturation scenario the retry loop of `Generate` exhausts every
attempt without a successful insert — the device index gains no entry for
device2 — yet the call returns the last rendered candidate "AAAAAA"
instead of the empty-string failure sentinel, because `key` is the named
return value of the Go function and keeps its last assignment when the
loop falls through. -/
theorem generate_exhausted_returns_nonempty :
    satSecond.2 = "AAAAAA" ∧ satSecond.2 ≠ "" ∧
    satSecond.1.devices.lookup "device2" = none := by decide

/-- C2: refuted by evaluation, the same slip as C1.  The two `Generate`
calls of the saturation scenario use distinct device identifiers with no
redemption or expiry in between, and both return the same non-empty key
"AAAAAA", which in the resulting store is still the live, non-expired
record of device1. -/
theorem generate_duplicate_of_live_key :
    satFirst.2 = "AAAAAA" ∧ satSecond.2 = satFirst.2 ∧ satFirst.2 ≠ "" ∧
    satSecond.1.keys.lookup "AAAAAA" = some ⟨"device1", "AAAAAA", 0⟩ ∧
    (0 : Int) - (0 : Int) < satSecond.1.Expire := by decide

/-- C3: single-use redemption.  Whenever `Generate` succeeded for device
`d` (the post-state holds a record for `d`) and the returned key is
redeemed before expiry, the first `Redeem` returns `d`; the store then no
longer holds the key, so every later `Redeem` of that key returns the
empty string and leaves the store unchanged. -/
theorem redeem_single_use (p P1 Q1 : Pairs) (d K1 ret1 : String)
    (render : Nat → String) (now now1 : Int) (r : keyInfo)
    (hwf : WF p)
    (hgen : p.Generate d render now = (P1, K1))
    (hsucc : P1.devices.lookup d = some r)
    (hfresh : now1 - now < P1.Expire)
    (hred : P1.GetDeviceID K1 now1 = (Q1, ret1)) :
    ret1 = d ∧ Q1.keys.lookup K1 = none ∧ Q1.devices.lookup d = none ∧
    ∀ now2, Q1.GetDeviceID K1 now2 = (Q1, "") := by
  obtain ⟨hr, hkey⟩ := generate_success_record p P1 K1 d render now r hwf hgen hsucc
  have hrt : r.Time = now := by rw [hr]
  have hrd : r.DeviceID = d := by rw [hr]
  have hrk : r.Key = K1 := by rw [hr]
  rw [Pairs.getDeviceID_found_fresh P1 K1 now1 r hkey (by rw [hrt]; exact hfresh)] at hred
  injection hred with hq hret
  subst hq; subst hret
  refine ⟨hrd, ?_, ?_, ?_⟩
  · rw [← hrk]
    exact AList.lookup_erase _ _
  · rw [← hrd]
    exact AList.lookup_erase _ _
  · intro now2
    apply Pairs.getDeviceID_missing
    rw [← hrk]
    exact AList.lookup_erase _ _

/-- C3 witness: a concrete store, generation and double redemption. -/
theorem redeem_single_use_witness :
    singleRedeem.2 = "dev" ∧
    singleRedeem.1.keys.lookup singleGen.2 = none ∧
    singleRedeem.1.devices.lookup "dev" = none ∧
    ∀ now2, singleRedeem.1.GetDeviceID singleGen.2 now2 = (singleRedeem.1, "") :=
  redeem_single_use smallStore singleGen.1 singleRedeem.1 "dev" singleGen.2
    singleRedeem.2 (fun _ => "KEY") 0 5 ⟨"dev", "KEY", 0⟩ wfm_empty rfl
    (by decide) (by decide) rfl

/-- C4: counterexample to the claim as stated.  When the renderer of the
second call returns the same string as the first call, the first returned
key — equal, as a string, to the second — redeems to the device, not to
the empty string. -/
theorem single_binding_counterexample :
    rebindSame1.2 = "AAAAAA" ∧ rebindSame2.2 = "AAAAAA" ∧
    (rebindSame2.1.GetDeviceID rebindSame1.2 1).2 = "dev" := by decide

/-- C4 (amended): the second `Generate` for the same device discards the
previous binding unconditionally: if the second call exhausts its budget
(no record for `d` afterwards), the first key is gone from the key index;
if it succeeds and its key differs from the first as a string, the first
key redeems to the empty string while the second key, before expiry,
redeems to `d`. -/
theorem single_binding_per_device (p P1 P2 : Pairs) (K1 K2 : String) (d : String)
    (render1 render2 : Nat → String) (now1 now2 : Int) (r1 : keyInfo)
    (hwf : WF p)
    (hgen1 : p.Generate d render1 now1 = (P1, K1))
    (hsucc1 : P1.devices.lookup d = some r1)
    (hgen2 : P1.Generate d render2 now2 = (P2, K2)) :
    (P2.devices.lookup d = none → P2.keys.lookup K1 = none) ∧
    (∀ r2 now3, P2.devices.lookup d = some r2 → K2 ≠ K1 →
      (P2.GetDeviceID K1 now3).2 = "" ∧
      (now3 - now2 < P2.Expire → (P2.GetDeviceID K2 now3).2 = d)) := by
  have hP1fst : (p.Generate d render1 now1).1 = P1 := by rw [hgen1]
  have hwfP1 : WF P1 := hP1fst ▸ wf_generate p d render1 now1 hwf
  obtain ⟨hr1, hkey1⟩ := generate_success_record p P1 K1 d render1 now1 r1 hwf hgen1 hsucc1
  have hr1k : r1.Key = K1 := by rw [hr1]
  obtain ⟨hA, hB⟩ := generate_supersedes P1 P2 K2 d render2 now2 r1 hwfP1 hsucc1 hgen2
  constructor
  · intro hfail
    rw [← hr1k]
    exact hA hfail
  · intro r2 now3 hsucc2 hne
    obtain ⟨hr2, hkey2, hgone⟩ := hB r2 hsucc2
    have hK1gone : P2.keys.lookup K1 = none := by
      rw [← hr1k]
      exact hgone (by rw [hr1k]; exact hne)
    constructor
    · rw [Pairs.getDeviceID_missing P2 K1 now3 hK1gone]
    · intro hfresh3
      have hr2t : r2.Time = now2 := by rw [hr2]
      rw [Pairs.getDeviceID_found_fresh P2 K2 now3 r2 hkey2 (by rw [hr2t]; exact hfresh3)]
      show r2.DeviceID = d
      rw [hr2]

/-- C4 witness: rebinding with a fresh second key. -/
theorem single_binding_per_device_witness :
    (rebind2.1.devices.lookup "dev" = none → rebind2.1.keys.lookup rebind1.2 = none) ∧
    (∀ r2 now3, rebind2.1.devices.lookup "dev" = some r2 → rebind2.2 ≠ rebind1.2 →
      (rebind2.1.GetDeviceID rebind1.2 now3).2 = "" ∧
      (now3 - 1 < rebind2.1.Expire → (rebind2.1.GetDeviceID rebind2.2 now3).2 = "dev")) :=
  single_binding_per_device smallStore rebind1.1 rebind2.1 rebind1.2 rebind2.2 "dev"
    (fun _ => "AAA") (fun _ => "BBB") 0 1 ⟨"dev", "AAA", 0⟩ wfm_empty rfl
    (by decide) rfl

/-- C5: redeeming a present but expired key still purges the record from
both indexes and returns the empty string, and a following redemption of
the same key also returns the empty string. -/
theorem redeem_expired_purges (p : Pairs) (k : String) (now : Int) (r : keyInfo)
    (hwf : WF p) (hfound : p.keys.lookup k = some r)
    (hexp : ¬ now - r.Time < p.Expire) :
    (p.GetDeviceID k now).2 = "" ∧
    (p.GetDeviceID k now).1.keys.lookup k = none ∧
    (p.GetDeviceID k now).1.devices.lookup r.DeviceID = none ∧
    ∀ now2, (p.GetDeviceID k now).1.GetDeviceID k now2 = ((p.GetDeviceID k now).1, "") := by
  obtain ⟨hrk, hrd⟩ := hwf.2 k r hfound
  rw [Pairs.getDeviceID_found_expired p k now r hfound hexp]
  have hkeygone : (p.keys.erase r.Key).lookup k = none := by
    rw [hrk]; exact AList.lookup_erase _ _
  refine ⟨rfl, hkeygone, AList.lookup_erase _ _, ?_⟩
  intro now2
  exact Pairs.getDeviceID_missing _ k now2 hkeygone

/-- C5 witness: a record with ttl 5 redeemed at instant 10. -/
theorem redeem_expired_purges_witness :
    (expiredStore.GetDeviceID "KEY" 10).2 = "" ∧
    (expiredStore.GetDeviceID "KEY" 10).1.keys.lookup "KEY" = none ∧
    (expiredStore.GetDeviceID "KEY" 10).1.devices.lookup "dev" = none ∧
    ∀ now2, (expiredStore.GetDeviceID "KEY" 10).1.GetDeviceID "KEY" now2 =
      ((expiredStore.GetDeviceID "KEY" 10).1, "") :=
  redeem_expired_purges expiredStore "KEY" 10 ⟨"dev", "KEY", 0⟩
    (wf_generate { Pairs.empty with Expire := 5, MaxIter := 3 } "dev"
      (fun _ => "KEY") 0 wfm_empty)
    (by decide) (by decide)

/-- C6: a redemption miss returns the empty string and leaves the store
completely unchanged — both maps, hence also their sizes. -/
theorem redeem_miss_no_mutation (p : Pairs) (k : String) (now : Int)
    (h : p.keys.lookup k = none) :
    p.GetDeviceID k now = (p, "") :=
  Pairs.getDeviceID_missing p k now h

/-- C6 witness: redeeming an unknown key on the fresh store. -/
theorem redeem_miss_no_mutation_witness :
    Pairs.empty.GetDeviceID "nonexistent" 0 = (Pairs.empty, "") :=
  redeem_miss_no_mutation Pairs.empty "nonexistent" 0 rfl

/-- C7: in every store reachable by any sequence of the two operations,
the two maps are two indexes over the same record set — a record sits in
the device index under its device exactly when the same record sits in the
key index under its key — and so the two maps have equal size. -/
theorem dual_index_invariant (p : Pairs) (h : Reachable p) :
    (∀ d r, p.devices.lookup d = some r → r.DeviceID = d ∧ p.keys.lookup r.Key = some r) ∧
    (∀ k r, p.keys.lookup k = some r → r.Key = k ∧ p.devices.lookup r.DeviceID = some r) ∧
    p.devices.entries.length = p.keys.entries.length := by
  have hwf : WF p := wf_reachable p h
  exact ⟨hwf.1, hwf.2, size_eq_of_wf p hwf⟩

/-- C7 witness: sizes agree after one generation from a fresh store. -/
theorem dual_index_invariant_witness :
    (Pairs.empty.Generate "dev" (fun _ => "KEY123") 0).1.devices.entries.length =
      (Pairs.empty.Generate "dev" (fun _ => "KEY123") 0).1.keys.entries.length :=
  (dual_index_invariant _
    (Reachable.gen _ "dev" (fun _ => "KEY123") 0 (Reachable.init "" 0 0 0))).2.2

/-- C8: every call to `Generate` defaults each zero-valued configuration
field — alphabet to `DictAlfa`, length to 6, ttl to 30 minutes, attempt
budget to 1000 — and leaves every non-zero field untouched. -/
theorem generate_defaults (p : Pairs) (d : String) (render : Nat → String) (now : Int) :
    (p.Generate d render now).1.Dictionary =
      (if p.Dictionary.length = 0 then DictAlfa else p.Dictionary) ∧
    (p.Generate d render now).1.Length = (if p.Length = 0 then 6 else p.Length) ∧
    (p.Generate d render now).1.Expire =
      (if p.Expire = 0 then 30 * timeMinute else p.Expire) ∧
    (p.Generate d render now).1.MaxIter = (if p.MaxIter = 0 then 1000 else p.MaxIter) := by
  rw [Pairs.generate_eq]
  obtain ⟨h1, h2, h3, h4⟩ := Pairs.genLoop_config d render now
    ((p.applyDefaults).dropExisting d).MaxIter 0 ((p.applyDefaults).dropExisting d) ""
  obtain ⟨g1, g2, g3, g4⟩ := Pairs.dropExisting_config p.applyDefaults d
  exact ⟨h1.trans g1, h2.trans g2, h3.trans g3, h4.trans g4⟩

/-- C9: `Generate` is a total function of the store, the renderer oracle
and the instant (the retry loop is structural recursion on its attempt
budget, so every call runs to completion), and it consults the renderer
only at attempt indexes below the defaulted `MaxIter`: two oracles that
agree on those indexes give identical results. -/
theorem generate_renderer_bounded (p : Pairs) (d : String) (now : Int)
    (render render2 : Nat → String)
    (h : ∀ i, i < (if p.MaxIter = 0 then 1000 else p.MaxIter) → render i = render2 i) :
    p.Generate d render now = p.Generate d render2 now := by
  rw [Pairs.generate_eq, Pairs.generate_eq]
  apply Pairs.genLoop_congr
  intro j h1 h2
  apply h
  obtain ⟨-, -, -, g4⟩ := Pairs.dropExisting_config p.applyDefaults d
  rw [g4] at h2
  have hmx : p.applyDefaults.MaxIter = (if p.MaxIter = 0 then 1000 else p.MaxIter) := rfl
  rw [hmx] at h2
  omega

/-- C9 witness: two oracles agreeing below the default budget of 1000. -/
theorem generate_renderer_bounded_witness :
    Pairs.empty.Generate "dev" (fun _ => "A") 0 =
      Pairs.empty.Generate "dev" (fun i => if i < 1000 then "A" else "B") 0 :=
  generate_renderer_bounded Pairs.empty "dev" 0 (fun _ => "A")
    (fun i => if i < 1000 then "A" else "B")
    (fun i hi => by
      have h1 : i < 1000 := by simpa using hi
      show "A" = if i < 1000 then "A" else "B"
      rw [if_pos h1])

/-- C10: `Generate` performs no validation of its argument: with the empty
string as device identifier a successful call binds the returned key to
the device identifier "", so redeeming that key — at any instant, expired
or not — returns the empty string, indistinguishable from a miss. -/
theorem generate_empty_device (p P1 : Pairs) (K1 : String) (render : Nat → String)
    (now : Int) (r : keyInfo)
    (hwf : WF p)
    (hgen : p.Generate "" render now = (P1, K1))
    (hsucc : P1.devices.lookup "" = some r) :
    r.DeviceID = "" ∧ r.Key = K1 ∧ ∀ now2, (P1.GetDeviceID K1 now2).2 = "" := by
  obtain ⟨hr, hkey⟩ := generate_success_record p P1 K1 "" render now r hwf hgen hsucc
  have hrd : r.DeviceID = "" := by rw [hr]
  refine ⟨hrd, by rw [hr], ?_⟩
  intro now2
  rw [Pairs.getDeviceID_found P1 K1 now2 r hkey]
  show (if now2 - r.Time < P1.Expire then r.DeviceID else "") = ""
  rw [hrd]
  exact ite_self ""

/-- C10 witness: generation for the empty device identifier. -/
theorem generate_empty_device_witness :
    (⟨"", "XYZ", 0⟩ : keyInfo).DeviceID = "" ∧
    (⟨"", "XYZ", 0⟩ : keyInfo).Key = emptyIdGen.2 ∧
    ∀ now2, (emptyIdGen.1.GetDeviceID emptyIdGen.2 now2).2 = "" :=
  generate_empty_device smallStore emptyIdGen.1 emptyIdGen.2 (fun _ => "XYZ") 0
    ⟨"", "XYZ", 0⟩ wfm_empty rfl (by decide)

end Pairing
